import Mathlib

/-!
Verification of the decision-fusion engine and honeypot module of the
smart_captcha_system repository.

The definitions below are a shallow embedding of:
  * `combine_module_results` in `backend/api/app.py`
  * `HoneypotModule._analyze_honeypots`, `_analyze_timing`, `_analyze_movement`,
    `_analyze_metadata`, `_create_enhanced_analysis_result` and
    `_create_error_result` in `backend/api/modules/honeypot.py`

Python floats are modelled as rationals (ℚ); Python bools used as 0/1
multipliers are modelled through an explicit `gate` function; dictionary
accesses that can raise `KeyError` are modelled through `Option` fields, with
`none` standing for a malformed input that makes the Python code throw.
-/

namespace SmartCaptcha

/-! ## Fusion engine data model (`combine_module_results`, app.py) -/

/-- The scalar inputs `combine_module_results` extracts from the three module
result dictionaries before fusing them. -/
structure FusionInput where
  ml_bot : Bool
  ml_confidence : ℚ
  honeypot_bot : Bool
  honeypot_confidence : ℚ
  fingerprint_bot_likely : Bool
  fingerprint_risk_score : ℚ
  fingerprint_confidence : ℚ
  risk_indicators : List String
  triggered_honeypots : Nat
deriving Repr

/-- `honeypot_weight = 0.45` in `combine_module_results`. -/
def honeypot_weight : ℚ := 0.45

/-- `ml_weight = 0.35` in `combine_module_results`. -/
def ml_weight : ℚ := 0.35

/-- `fingerprint_weight = 0.20` in `combine_module_results`. -/
def fingerprint_weight : ℚ := 0.20

/-- A Python bool used as a multiplier: `True * x = x`, `False * x = 0`. -/
def gate (b : Bool) : ℚ := if b then 1 else 0

/-- The weighted bot probability computed in `combine_module_results`:
`ml_bot * ml_confidence * ml_weight + fingerprint_bot_likely *
fingerprint_risk_score * fingerprint_weight + honeypot_bot *
honeypot_confidence * honeypot_weight`. -/
def weightedProbability (i : FusionInput) : ℚ :=
  gate i.ml_bot * i.ml_confidence * ml_weight
    + gate i.fingerprint_bot_likely * i.fingerprint_risk_score * fingerprint_weight
    + gate i.honeypot_bot * i.honeypot_confidence * honeypot_weight

/-- `bot_probability` after the honeypot trigger bonus
(`if triggered_honeypots > 0: bot_probability += triggered_honeypots * 0.15`)
but before the cap at 1.0. -/
def preClampProbability (i : FusionInput) : ℚ :=
  if i.triggered_honeypots > 0 then
    weightedProbability i + i.triggered_honeypots * 0.15
  else
    weightedProbability i

/-- The final `bot_probability = min(bot_probability, 1.0)`. -/
def botProbability (i : FusionInput) : ℚ :=
  min (preClampProbability i) 1

/-- `combined_confidence` in `combine_module_results`. -/
def combinedConfidence (i : FusionInput) : ℚ :=
  i.ml_confidence * ml_weight + i.fingerprint_confidence * fingerprint_weight
    + i.honeypot_confidence * honeypot_weight

/-- The decision threshold after the honeypot trigger-count rules:
base 0.4, `if triggered_honeypots >= 2: 0.1 elif triggered_honeypots == 1:
0.25`. -/
def triggerThreshold (i : FusionInput) : ℚ :=
  if i.triggered_honeypots ≥ 2 then 0.1
  else if i.triggered_honeypots = 1 then 0.25
  else 0.4

/-- The fingerprint threshold rules applied to the current threshold `t`:
`if 'webdriver_detected' in high_risk_indicators: min(t, 0.2)
elif fingerprint_risk_score > 0.8: min(t, 0.3)`. -/
def fingerprintRules (indicators : List String) (score t : ℚ) : ℚ :=
  if indicators.contains "webdriver_detected" then min t 0.2
  else if score > 0.8 then min t 0.3
  else t

/-- The final decision threshold: the trigger-count rules followed by the
fingerprint rules. -/
def decisionThreshold (i : FusionInput) : ℚ :=
  fingerprintRules i.risk_indicators i.fingerprint_risk_score (triggerThreshold i)

/-- `is_bot = bot_probability > decision_threshold`. -/
def isBot (i : FusionInput) : Bool :=
  decide (botProbability i > decisionThreshold i)

/-- `risk_level`: `high` if probability > 0.7, `medium` if > 0.4, else `low`. -/
def riskLevel (i : FusionInput) : String :=
  if botProbability i > 0.7 then "high"
  else if botProbability i > 0.4 then "medium"
  else "low"

/-- `recommendation = 'block' if is_bot else 'allow'`. -/
def recommendation (i : FusionInput) : String :=
  if isBot i then "block" else "allow"

/-- The fields of the dictionary `combine_module_results` returns that the
specification talks about. -/
structure CombinationResult where
  is_bot : Bool
  confidence : ℚ
  bot_probability : ℚ
  risk_level : String
  recommendation : String
deriving Repr

/-- The fixed verdict returned from the `except` branch of
`combine_module_results`. -/
def combinationErrorResult : CombinationResult :=
  { is_bot := true
    confidence := 0.8
    bot_probability := 0.9
    risk_level := "high"
    recommendation := "block" }

/-- The result of the happy path of `combine_module_results`. -/
def combineFrom (i : FusionInput) : CombinationResult :=
  { is_bot := isBot i
    confidence := combinedConfidence i
    bot_probability := botProbability i
    risk_level := riskLevel i
    recommendation := recommendation i }

/-- The pieces `combine_module_results` reads out of `honeypot_result`:
`honeypot_result['honeypot_verdict']['is_bot']`, `...['confidence']` and
`honeypot_result.get('honeypot_summary', {}).get('triggered_honeypots', 0)`. -/
structure FusionHoneypotPart where
  verdict_is_bot : Bool
  verdict_confidence : ℚ
  triggered_honeypots : Nat
deriving Repr

/-- The pieces `combine_module_results` reads out of `fingerprint_result`:
`fingerprint_result['verdict']['is_suspicious']`, `...['confidence']`,
`fingerprint_result['analysis'].get('is_bot_likely', False)`,
`...get('risk_score', 0)` and `...get('risk_indicators', [])`. -/
structure FusionFingerprintPart where
  verdict_is_suspicious : Bool
  verdict_confidence : ℚ
  is_bot_likely : Bool
  risk_score : ℚ
  risk_indicators : List String
deriving Repr

/-- The raw module results handed to `combine_module_results`.  The honeypot
and fingerprint dictionaries are accessed with `[...]`, which raises
`KeyError` on a malformed input; this fallibility is modelled with `Option`
(`none` = the required keys are missing, so the Python body throws). -/
structure RawModuleResults where
  ml_result_bot : Bool
  ml_result_confidence : ℚ
  honeypot_result : Option FusionHoneypotPart
  fingerprint_result : Option FusionFingerprintPart

/-- `combine_module_results`: either all required keys are present and the
fusion arithmetic runs, or the body throws and the `except` branch returns
the fixed fail-closed verdict. -/
def combineModuleResults (r : RawModuleResults) : CombinationResult :=
  match r.honeypot_result, r.fingerprint_result with
  | some hp, some fp =>
      combineFrom
        { ml_bot := r.ml_result_bot
          ml_confidence := r.ml_result_confidence
          honeypot_bot := hp.verdict_is_bot
          honeypot_confidence := hp.verdict_confidence
          fingerprint_bot_likely := fp.is_bot_likely
          fingerprint_risk_score := fp.risk_score
          fingerprint_confidence := fp.verdict_confidence
          risk_indicators := fp.risk_indicators
          triggered_honeypots := hp.triggered_honeypots }
  | _, _ => combinationErrorResult

/-! ## Honeypot module data model (`HoneypotModule`, honeypot.py) -/

/-- A user interaction event, with the fields the honeypot analyzers read
(`event_name`, `timestamp`, `x_position`, `y_position`, defaulting to 0 via
`.get`). -/
structure Event where
  event_name : String
  timestamp : ℚ
  x_position : ℚ
  y_position : ℚ
deriving Repr, DecidableEq

/-- The metadata fields the honeypot module reads (each via `.get` with the
default shown in `_analyze_honeypots` / `_analyze_metadata`). -/
structure Metadata where
  hidden_honeypot_field : String
  fake_submit_clicked : Bool
  js_optional_field : String
  js_enabled : Bool
  focus_trail : List String
  expected_focus_order : List String
  offscreen_mouse_triggered : Bool
  user_agent : String
deriving Repr

/-- `self.strict_mode = True` in `HoneypotModule.__init__`. -/
def strict_mode : Bool := true

/-! ### Focus-order honeypot (trap 4 of `_analyze_honeypots`) -/

/-- One step of the focus-trail loop: for each window
`(before_previous, previous, current)` of three consecutive focus events,
count `rapid_back_and_forth` (`current == before_previous and current !=
previous`) and `extreme_violations` (`abs(index(current) - index(previous))
>= 4`), both only when all three fields are in `expected_order`. -/
def focusCountsAux (expected : List String) : List String → Nat × Nat
  | bp :: prev :: cur :: rest =>
      let tailCounts := focusCountsAux expected (prev :: cur :: rest)
      if expected.contains bp && expected.contains prev && expected.contains cur then
        let rapid := if cur = bp ∧ cur ≠ prev then 1 else 0
        let jump := ((expected.indexOf cur : Int) - (expected.indexOf prev : Int)).natAbs
        let extreme := if jump ≥ 4 then 1 else 0
        (rapid + tailCounts.1, extreme + tailCounts.2)
      else
        tailCounts
  | _ => (0, 0)

/-- `rapid_back_and_forth` after the loop over the whole focus trail. -/
def rapidBackAndForth (trail expected : List String) : Nat :=
  (focusCountsAux expected trail).1

/-- `extreme_violations` after the loop over the whole focus trail. -/
def extremeViolations (trail expected : List String) : Nat :=
  (focusCountsAux expected trail).2

/-- Whether the focus-order honeypot triggers:
`len(focus_trail) >= 6 and len(expected_order) > 0` and then
`rapid_back_and_forth >= 3 or extreme_violations >= 4`. -/
def focusOrderTriggered (trail expected : List String) : Bool :=
  trail.length ≥ 6 && expected.length > 0 &&
    (rapidBackAndForth trail expected ≥ 3 || extremeViolations trail expected ≥ 4)

/-! ### The five trap checks of `_analyze_honeypots` -/

/-- Python's `str.strip()`: the string with leading and trailing whitespace
removed. -/
def pyStrip (s : String) : String :=
  ⟨((s.toList.dropWhile Char.isWhitespace).reverse.dropWhile Char.isWhitespace).reverse⟩

/-- Trap 1: `hidden_honeypot_field` is truthy and truthy after `.strip()`,
i.e. nonempty after stripping whitespace. -/
def hiddenFieldTriggered (m : Metadata) : Bool :=
  pyStrip m.hidden_honeypot_field ≠ ""

/-- Trap 2: `fake_submit_clicked` is true. -/
def fakeSubmitTriggered (m : Metadata) : Bool :=
  m.fake_submit_clicked

/-- Trap 3: `not js_enabled and js_optional_field` is truthy after strip. -/
def optionalFieldTriggered (m : Metadata) : Bool :=
  !m.js_enabled && pyStrip m.js_optional_field ≠ ""

/-- Trap 4 applied to the metadata's focus trail. -/
def focusOrderTriggeredM (m : Metadata) : Bool :=
  focusOrderTriggered m.focus_trail m.expected_focus_order

/-- Trap 5: `offscreen_mouse_triggered` is true. -/
def offscreenMouseTriggered (m : Metadata) : Bool :=
  m.offscreen_mouse_triggered

/-- The accumulated `total_score` after the five per-trap weight additions
(weights from `self.honeypot_weights`: hidden_field 0.25, fake_submit 0.25,
optional_field 0.2, focus_order 0.15, offscreen_mouse 0.15). -/
def honeypotWeightScore (m : Metadata) : ℚ :=
  (if hiddenFieldTriggered m then 0.25 else 0)
    + (if fakeSubmitTriggered m then 0.25 else 0)
    + (if optionalFieldTriggered m then 0.2 else 0)
    + (if focusOrderTriggeredM m then 0.15 else 0)
    + (if offscreenMouseTriggered m then 0.15 else 0)

/-- `len(primary_honeypots_triggered)`: triggered traps among
`hidden_field`, `fake_submit`, `optional_field`. -/
def primaryCount (m : Metadata) : Nat :=
  (if hiddenFieldTriggered m then 1 else 0)
    + (if fakeSubmitTriggered m then 1 else 0)
    + (if optionalFieldTriggered m then 1 else 0)

/-- `len(secondary_honeypots_triggered)`: triggered traps among
`focus_order`, `offscreen_mouse`. -/
def secondaryCount (m : Metadata) : Nat :=
  (if focusOrderTriggeredM m then 1 else 0)
    + (if offscreenMouseTriggered m then 1 else 0)

/-- `total_honeypots_triggered = len(primary) + len(secondary)`. -/
def honeypotsTriggered (m : Metadata) : Nat :=
  primaryCount m + secondaryCount m

/-- `total_score` after the strict-mode block: if `strict_mode` and any
primary honeypot triggered, `total_score = 1.0`; elif any secondary
triggered, `total_score += len(secondary) * 0.3`; else unchanged. -/
def honeypotAdjustedScore (m : Metadata) : ℚ :=
  if strict_mode && primaryCount m > 0 then 1
  else if secondaryCount m > 0 then
    honeypotWeightScore m + secondaryCount m * 0.3
  else honeypotWeightScore m

/-- The honeypot sub-analysis `total_score` returned by `_analyze_honeypots`:
after the strict-mode block, `+= 0.1` when `len(events) == 0`, then
`min(total_score, 1.0)`. -/
def honeypotTotalScore (events : List Event) (m : Metadata) : ℚ :=
  let s := honeypotAdjustedScore m
  let s := if events.length = 0 then s + 0.1 else s
  min s 1

/-- The indicator list built by `_analyze_honeypots` (appended in trap order,
then the strict-mode marker, then `no_user_interaction` for empty events). -/
def honeypotIndicators (events : List Event) (m : Metadata) : List String :=
  (if hiddenFieldTriggered m then ["hidden_field_filled"] else [])
    ++ (if fakeSubmitTriggered m then ["fake_submit_clicked"] else [])
    ++ (if optionalFieldTriggered m then ["js_field_no_js"] else [])
    ++ (if focusOrderTriggeredM m then ["extreme_bot_focus_pattern"] else [])
    ++ (if offscreenMouseTriggered m then ["offscreen_mouse_decoy"] else [])
    ++ (if strict_mode && primaryCount m > 0 then ["strict_primary_honeypot_enforcement"] else [])
    ++ (if events.length = 0 then ["no_user_interaction"] else [])

/-! ### Behavioral analyzers (`_analyze_timing`, `_analyze_movement`,
`_analyze_metadata`) -/

/-- `time_diffs`: consecutive timestamp differences
`events[i].timestamp - events[i-1].timestamp`. -/
def timeDiffs : List Event → List ℚ
  | a :: b :: rest => (b.timestamp - a.timestamp) :: timeDiffs (b :: rest)
  | _ => []

/-- `_analyze_timing`: returns `(score, indicators)`.  With fewer than 3
events, `(0.2, ['insufficient_timing_data'])`; otherwise +0.3 when the average
time difference is below 50 and +0.2 when fewer than 30% of the differences
are distinct. -/
def analyzeTiming (events : List Event) : ℚ × List String :=
  if events.length < 3 then (0.2, ["insufficient_timing_data"])
  else
    let diffs := timeDiffs events
    if diffs.isEmpty then (0, [])
    else
      let avg := diffs.sum / (diffs.length : ℚ)
      let rapid := avg < 50
      let regular := (diffs.dedup.length : ℚ) < (diffs.length : ℚ) * 0.3
      ((if rapid then 0.3 else 0) + (if regular then 0.2 else 0),
        (if rapid then ["rapid_interactions"] else [])
          ++ (if regular then ["regular_timing"] else []))

/-- `_analyze_movement`: over the `mousemove` events, `(0.3,
['minimal_movement'])` when fewer than 5; otherwise +0.4 when all x or all y
coordinates take at most two distinct values. -/
def analyzeMovement (events : List Event) : ℚ × List String :=
  let mv := events.filter (fun e => e.event_name == "mousemove")
  if mv.length < 5 then (0.3, ["minimal_movement"])
  else
    if mv.length > 3 then
      let xs := (mv.map Event.x_position).dedup
      let ys := (mv.map Event.y_position).dedup
      if xs.length ≤ 2 || ys.length ≤ 2 then (0.4, ["linear_movement"])
      else (0, [])
    else (0, [])

/-- Whether `sub` occurs as a contiguous sublist of the second list
(Python's `sub in s` on strings). -/
def hasSublist (sub : List Char) : List Char → Bool
  | [] => sub.isEmpty
  | c :: rest => sub.isPrefixOf (c :: rest) || hasSublist sub rest

/-- Python's `needle in haystack` on strings. -/
def containsSub (needle haystack : String) : Bool :=
  hasSublist needle.toList haystack.toList

/-- The bot markers scanned for in the lower-cased user agent. -/
def botMarkers : List String := ["bot", "crawler", "spider", "automated"]

/-- `_analyze_metadata`: +0.5 with indicator `bot_user_agent` when the
lower-cased user agent contains any bot marker. -/
def analyzeMetadata (m : Metadata) : ℚ × List String :=
  if botMarkers.any (fun b => containsSub b m.user_agent.toLower) then
    (0.5, ["bot_user_agent"])
  else (0, [])

/-! ### `HoneypotModule.analyze` and the result builders -/

/-- `behavioral_score = (timing_score + movement_score + metadata_score) / 10.0`. -/
def behavioralScore (events : List Event) (m : Metadata) : ℚ :=
  ((analyzeTiming events).1 + (analyzeMovement events).1 + (analyzeMetadata m).1) / 10

/-- `total_score = (honeypot_score * 0.8) + (behavioral_score * 0.2)`. -/
def analyzeTotalScore (events : List Event) (m : Metadata) : ℚ :=
  honeypotTotalScore events m * 0.8 + behavioralScore events m * 0.2

/-- The threat level buckets of `analyze`. -/
def threatLevel (ts : ℚ) : String :=
  if ts ≥ 0.8 then "critical"
  else if ts ≥ 0.6 then "high"
  else if ts ≥ 0.3 then "medium"
  else "low"

/-- The confidence reported in `_create_enhanced_analysis_result`:
`min(0.9, 0.5 + (total_score * 0.4))`. -/
def analyzeConfidence (events : List Event) (m : Metadata) : ℚ :=
  min 0.9 (0.5 + analyzeTotalScore events m * 0.4)

/-- The `honeypot_verdict` sub-dictionary of an analysis result. -/
structure HoneypotVerdict where
  is_bot : Bool
  confidence : ℚ
  recommendation : String
  bot_probability : ℚ
deriving Repr

/-- The fields of the dictionary returned by `HoneypotModule.analyze` that
the specification talks about (the `error` key is `none` on the happy path). -/
structure HoneypotAnalysisResult where
  analysis_total_score : ℚ
  analysis_honeypot_score : ℚ
  threat_level : String
  threat_indicators : List String
  analysis_error : Option String
  honeypot_verdict : HoneypotVerdict
  honeypot_results_total_score : ℚ
  honeypot_results_indicators : List String
  triggered_honeypots : Nat
deriving Repr

/-- The happy path of `HoneypotModule.analyze` assembled by
`_create_enhanced_analysis_result`. -/
def analyze (events : List Event) (m : Metadata) : HoneypotAnalysisResult :=
  let hpScore := honeypotTotalScore events m
  let ts := analyzeTotalScore events m
  let level := threatLevel ts
  { analysis_total_score := ts
    analysis_honeypot_score := hpScore
    threat_level := level
    threat_indicators :=
      honeypotIndicators events m ++ (analyzeTiming events).2
        ++ (analyzeMovement events).2 ++ (analyzeMetadata m).2
    analysis_error := none
    honeypot_verdict :=
      { is_bot := decide (ts ≥ 0.3)
        confidence := analyzeConfidence events m
        recommendation :=
          if level = "critical" ∨ level = "high" then "block"
          else if level = "medium" then "monitor"
          else "allow"
        bot_probability := ts }
    honeypot_results_total_score := hpScore
    honeypot_results_indicators := honeypotIndicators events m
    triggered_honeypots := honeypotsTriggered m }

/-- `_create_error_result`: the result returned when trap evaluation throws. -/
def createErrorResult (msg : String) : HoneypotAnalysisResult :=
  { analysis_total_score := 0.5
    analysis_honeypot_score := 0
    threat_level := "medium"
    threat_indicators := ["analysis_error"]
    analysis_error := some msg
    honeypot_verdict :=
      { is_bot := true
        confidence := 0.3
        recommendation := "monitor"
        bot_probability := 0.5 }
    honeypot_results_total_score := 0
    honeypot_results_indicators := ["analysis_error"]
    triggered_honeypots := 0 }

/-! ## Helper lemmas -/

theorem iteNonneg (c : Prop) [Decidable c] {a b : ℚ} (ha : 0 ≤ a) (hb : 0 ≤ b) :
    0 ≤ if c then a else b := by
  split <;> assumption

theorem fingerprintRules_le (indicators : List String) (score t : ℚ) :
    fingerprintRules indicators score t ≤ t := by
  unfold fingerprintRules
  split
  · exact min_le_left _ _
  · split
    · exact min_le_left _ _
    · exact le_rfl

theorem fingerprintRules_mono (indicators : List String) (score : ℚ) {a b : ℚ}
    (h : a ≤ b) : fingerprintRules indicators score a ≤ fingerprintRules indicators score b := by
  unfold fingerprintRules
  split
  · exact min_le_min h le_rfl
  · split
    · exact min_le_min h le_rfl
    · exact h

theorem honeypotWeightScore_nonneg (m : Metadata) : 0 ≤ honeypotWeightScore m := by
  unfold honeypotWeightScore
  refine add_nonneg (add_nonneg (add_nonneg (add_nonneg ?_ ?_) ?_) ?_) ?_ <;>
    exact iteNonneg _ (by norm_num) le_rfl

theorem honeypotAdjustedScore_nonneg (m : Metadata) : 0 ≤ honeypotAdjustedScore m := by
  unfold honeypotAdjustedScore
  split
  · norm_num
  · split
    · exact add_nonneg (honeypotWeightScore_nonneg m) (by positivity)
    · exact honeypotWeightScore_nonneg m

theorem honeypotTotalScore_nonneg (events : List Event) (m : Metadata) :
    0 ≤ honeypotTotalScore events m := by
  unfold honeypotTotalScore
  have h := honeypotAdjustedScore_nonneg m
  refine le_min ?_ (by norm_num)
  split <;> linarith

theorem analyzeTiming_fst_nonneg (events : List Event) : 0 ≤ (analyzeTiming events).1 := by
  unfold analyzeTiming
  dsimp only
  split
  · norm_num
  · split
    · norm_num
    · exact add_nonneg (iteNonneg _ (by norm_num) le_rfl) (iteNonneg _ (by norm_num) le_rfl)

theorem analyzeMovement_fst_nonneg (events : List Event) : 0 ≤ (analyzeMovement events).1 := by
  unfold analyzeMovement
  dsimp only
  split
  · norm_num
  · split
    · split <;> norm_num
    · norm_num

theorem analyzeMetadata_fst_nonneg (m : Metadata) : 0 ≤ (analyzeMetadata m).1 := by
  unfold analyzeMetadata
  split <;> norm_num

theorem behavioralScore_nonneg (events : List Event) (m : Metadata) :
    0 ≤ behavioralScore events m := by
  unfold behavioralScore
  have h1 := analyzeTiming_fst_nonneg events
  have h2 := analyzeMovement_fst_nonneg events
  have h3 := analyzeMetadata_fst_nonneg m
  positivity

theorem analyzeTotalScore_nonneg (events : List Event) (m : Metadata) :
    0 ≤ analyzeTotalScore events m := by
  unfold analyzeTotalScore
  have h1 := honeypotTotalScore_nonneg events m
  have h2 := behavioralScore_nonneg events m
  positivity

/-- The decision-threshold rules exactly as the specification sequences them:
base 0.4; then if `n == 1` the threshold is 0.25; then if `n >= 2` it is 0.1;
then the automation-driver rule `min(current, 0.2)`, else if `score > 0.8`
the rule `min(current, 0.3)`. -/
def specThresholdSequence (i : FusionInput) : ℚ :=
  let t : ℚ := 0.4
  let t := if i.triggered_honeypots = 1 then 0.25 else t
  let t := if i.triggered_honeypots ≥ 2 then 0.1 else t
  if i.risk_indicators.contains "webdriver_detected" then min t 0.2
  else if i.fingerprint_risk_score > 0.8 then min t 0.3
  else t

/-! ## Claims -/

/-- C1: the fused pre-bonus weighted probability equals
`behavioral.detected * behavioral.confidence * 0.35
 + fingerprint.detected * fingerprint.score * 0.20
 + honeypot.detected * honeypot.confidence * 0.45`
with each `detected` flag a 0/1 gate, and whenever a producer's `detected`
flag is false, changing that producer's score/confidence does not change the
weighted term at all: it contributes exactly zero regardless of magnitude. -/
theorem C1_weighted_formula_and_gating (i : FusionInput) (c : ℚ) :
    weightedProbability i =
        (if i.ml_bot then (1 : ℚ) else 0) * i.ml_confidence * 0.35
          + (if i.fingerprint_bot_likely then (1 : ℚ) else 0) * i.fingerprint_risk_score * 0.20
          + (if i.honeypot_bot then (1 : ℚ) else 0) * i.honeypot_confidence * 0.45
      ∧ (i.ml_bot = false →
          weightedProbability { i with ml_confidence := c } = weightedProbability i)
      ∧ (i.fingerprint_bot_likely = false →
          weightedProbability { i with fingerprint_risk_score := c } = weightedProbability i)
      ∧ (i.honeypot_bot = false →
          weightedProbability { i with honeypot_confidence := c } = weightedProbability i) := by
  refine ⟨rfl, fun h => ?_, fun h => ?_, fun h => ?_⟩ <;>
    simp [weightedProbability, gate, h]

/-- Witness for C1: a producer whose `detected` flag is false contributes
zero at a concrete input even with score 7. -/
theorem C1_witness :
    weightedProbability
        { (⟨false, 0.9, false, 0.8, false, 0.7, 0.6, [], 0⟩ : FusionInput) with
            ml_confidence := (7 : ℚ) }
      = weightedProbability ⟨false, 0.9, false, 0.8, false, 0.7, 0.6, [], 0⟩ :=
  (C1_weighted_formula_and_gating ⟨false, 0.9, false, 0.8, false, 0.7, 0.6, [], 0⟩ 7).2.1 rfl

/-- C2: the decision threshold follows the spec's rule sequence (base 0.4;
`n == 1` gives 0.25; `n >= 2` gives 0.1; the automation-driver marker takes
`min(current, 0.2)`, else `fingerprint.score > 0.8` takes `min(current, 0.3)`),
the fingerprint rules never raise the threshold set by the trigger-count
rules, and the threshold is monotonically non-increasing in the trigger
count: `threshold(n=0) ≥ threshold(n=1) ≥ threshold(n>=2)`. -/
theorem C2_adaptive_threshold (i : FusionInput) (m : Nat) (hm : 2 ≤ m) :
    decisionThreshold i = specThresholdSequence i
      ∧ decisionThreshold i ≤ triggerThreshold i
      ∧ decisionThreshold { i with triggered_honeypots := 1 }
          ≤ decisionThreshold { i with triggered_honeypots := 0 }
      ∧ decisionThreshold { i with triggered_honeypots := m }
          ≤ decisionThreshold { i with triggered_honeypots := 1 } := by
  refine ⟨?_, fingerprintRules_le _ _ _, ?_, ?_⟩
  · have ht : triggerThreshold i =
        (let t : ℚ := 0.4
         let t := if i.triggered_honeypots = 1 then 0.25 else t
         if i.triggered_honeypots ≥ 2 then 0.1 else t) := by
      unfold triggerThreshold
      rcases Nat.lt_or_ge i.triggered_honeypots 2 with h2 | h2
      · have : ¬ i.triggered_honeypots ≥ 2 := by omega
        by_cases h1 : i.triggered_honeypots = 1 <;> simp [h1, this]
      · have h1 : i.triggered_honeypots ≠ 1 := by omega
        simp [h1, h2]
    unfold decisionThreshold specThresholdSequence fingerprintRules
    rw [ht]
  · unfold decisionThreshold
    apply fingerprintRules_mono
    norm_num [triggerThreshold]
  · unfold decisionThreshold
    apply fingerprintRules_mono
    have h2 : ¬ (1 : Nat) ≥ 2 := by omega
    have hm2 : m ≥ 2 := hm
    norm_num [triggerThreshold, hm2]

/-- Witness for C2 at a concrete input and `m = 2`. -/
theorem C2_witness :
    decisionThreshold ⟨true, 0.5, true, 0.5, true, 0.5, 0.5, [], 0⟩
      = specThresholdSequence ⟨true, 0.5, true, 0.5, true, 0.5, 0.5, [], 0⟩ :=
  (C2_adaptive_threshold ⟨true, 0.5, true, 0.5, true, 0.5, 0.5, [], 0⟩ 2 (by norm_num)).1

/-- C3: whenever the trigger count `n` is positive, exactly `n * 0.15` is
added to the weighted probability before clamping, and two fusion runs that
differ only in `n` by one differ in the pre-clamp probability by exactly
0.15. -/
theorem C3_trigger_bonus (i : FusionInput) :
    (0 < i.triggered_honeypots →
        preClampProbability i = weightedProbability i + i.triggered_honeypots * 0.15)
      ∧ preClampProbability { i with triggered_honeypots := i.triggered_honeypots + 1 }
          = preClampProbability i + 0.15 := by
  constructor
  · intro h
    simp [preClampProbability, h]
  · by_cases h : i.triggered_honeypots = 0
    · simp [preClampProbability, weightedProbability, h]
    · simp [preClampProbability, weightedProbability, h, Nat.pos_iff_ne_zero]
      ring

/-- Witness for C3 at one triggered honeypot. -/
theorem C3_witness :
    preClampProbability ⟨true, 0.5, true, 0.5, true, 0.5, 0.5, [], 1⟩
      = weightedProbability ⟨true, 0.5, true, 0.5, true, 0.5, 0.5, [], 1⟩
          + (1 : Nat) * 0.15 :=
  (C3_trigger_bonus ⟨true, 0.5, true, 0.5, true, 0.5, 0.5, [], 1⟩).1 (by norm_num)

/-- C6: when the fusion body cannot extract its required inputs (the Python
code throws), `combine_module_results` returns the fixed fail-closed verdict
`is_bot = true, bot_probability = 0.9, confidence = 0.8, risk_level = high,
recommendation = block`. -/
theorem C6_fail_closed (r : RawModuleResults)
    (h : r.honeypot_result = none ∨ r.fingerprint_result = none) :
    combineModuleResults r = combinationErrorResult
      ∧ combinationErrorResult.is_bot = true
      ∧ combinationErrorResult.bot_probability = 0.9
      ∧ combinationErrorResult.confidence = 0.8
      ∧ combinationErrorResult.risk_level = "high"
      ∧ combinationErrorResult.recommendation = "block" := by
  refine ⟨?_, rfl, rfl, rfl, rfl, rfl⟩
  obtain ⟨mb, mc, hp, fp⟩ := r
  rcases h with h | h <;> dsimp at h <;> subst h
  · cases fp <;> rfl
  · cases hp <;> rfl

/-- Witness for C6: fusion of malformed module results at a concrete input. -/
theorem C6_witness :
    combineModuleResults ⟨true, 0.5, none, none⟩ = combinationErrorResult :=
  (C6_fail_closed ⟨true, 0.5, none, none⟩ (Or.inl rfl)).1

/-- C8: the verdict uses strict inequality (`is_bot` is true exactly when
`bot_probability > decision_threshold`), so at exact equality `is_bot` is
false and the recommendation is `allow`. -/
theorem C8_strict_verdict_boundary (i : FusionInput) :
    (isBot i = true ↔ botProbability i > decisionThreshold i)
      ∧ (botProbability i = decisionThreshold i →
          isBot i = false ∧ recommendation i = "allow") := by
  constructor
  · simp [isBot]
  · intro h
    have hn : ¬ botProbability i > decisionThreshold i := by
      rw [h]; exact lt_irrefl _
    refine ⟨by simp [isBot, hn], ?_⟩
    simp [recommendation, isBot, hn]

/-- Witness for C8 at a concrete input whose probability exactly equals the
threshold (honeypot confidence 8/9 gives 0.4 = base threshold). -/
theorem C8_witness :
    isBot ⟨false, 0, true, 8/9, false, 0, 0, [], 0⟩ = false
      ∧ recommendation ⟨false, 0, true, 8/9, false, 0, 0, [], 0⟩ = "allow" :=
  (C8_strict_verdict_boundary ⟨false, 0, true, 8/9, false, 0, 0, [], 0⟩).2
    (by norm_num [botProbability, preClampProbability, weightedProbability, decisionThreshold,
          triggerThreshold, fingerprintRules, gate, honeypot_weight, ml_weight, fingerprint_weight])

theorem botProbability_mono {i j : FusionInput}
    (hw : weightedProbability i ≤ weightedProbability j)
    (hn : i.triggered_honeypots = j.triggered_honeypots) :
    botProbability i ≤ botProbability j := by
  apply min_le_min _ le_rfl
  unfold preClampProbability
  rw [hn]
  by_cases hc : j.triggered_honeypots > 0 <;> simp [hc] <;> linarith

/-- C7: while a producer's detected flag is true, increasing that producer's
score/confidence within [0,1] with every other input fixed never decreases
the clamped bot probability. -/
theorem C7_monotone_in_scores (i : FusionInput) (c c' : ℚ)
    (_hc0 : 0 ≤ c) (hcc : c ≤ c') (_hc1 : c' ≤ 1) :
    (i.ml_bot = true →
        botProbability { i with ml_confidence := c }
          ≤ botProbability { i with ml_confidence := c' })
      ∧ (i.fingerprint_bot_likely = true →
        botProbability { i with fingerprint_risk_score := c }
          ≤ botProbability { i with fingerprint_risk_score := c' })
      ∧ (i.honeypot_bot = true →
        botProbability { i with honeypot_confidence := c }
          ≤ botProbability { i with honeypot_confidence := c' }) := by
  refine ⟨fun h => ?_, fun h => ?_, fun h => ?_⟩ <;>
    · refine botProbability_mono ?_ rfl
      simp [weightedProbability, gate, h, ml_weight, fingerprint_weight, honeypot_weight]
      linarith

/-- Witness for C7: raising the honeypot confidence from 0.2 to 0.8 at a
concrete input. -/
theorem C7_witness :
    botProbability
        { (⟨false, 0, true, 0.5, false, 0, 0, [], 0⟩ : FusionInput) with
            honeypot_confidence := (0.2 : ℚ) }
      ≤ botProbability
        { (⟨false, 0, true, 0.5, false, 0, 0, [], 0⟩ : FusionInput) with
            honeypot_confidence := (0.8 : ℚ) } :=
  (C7_monotone_in_scores ⟨false, 0, true, 0.5, false, 0, 0, [], 0⟩ 0.2 0.8
      (by norm_num) (by norm_num) (by norm_num)).2.2 rfl

/-- C4: in `_analyze_honeypots`, any primary trap trigger forces the trap
score to 1.0 regardless of which or how many primary traps fired; with no
primary trigger but `k > 0` secondary triggers, `k * 0.3` is added to the
accumulated trap score instead. -/
theorem C4_strict_mode_escalation (m : Metadata) :
    (0 < primaryCount m → honeypotAdjustedScore m = 1)
      ∧ (primaryCount m = 0 → 0 < secondaryCount m →
          honeypotAdjustedScore m = honeypotWeightScore m + secondaryCount m * 0.3) := by
  constructor
  · intro h
    simp [honeypotAdjustedScore, strict_mode, h]
  · intro h0 hs
    simp [honeypotAdjustedScore, strict_mode, h0, hs]

/-- Witness for C4: one filled hidden field forces score 1.0; one offscreen
decoy touch adds 0.3 to the trap score. -/
theorem C4_witness :
    honeypotAdjustedScore ⟨"x", false, "", true, [], [], false, ""⟩ = 1
      ∧ honeypotAdjustedScore ⟨"", false, "", true, [], [], true, ""⟩
          = honeypotWeightScore ⟨"", false, "", true, [], [], true, ""⟩
              + (secondaryCount ⟨"", false, "", true, [], [], true, ""⟩ : ℚ) * 0.3 :=
  ⟨(C4_strict_mode_escalation ⟨"x", false, "", true, [], [], false, ""⟩).1 (by decide),
    (C4_strict_mode_escalation ⟨"", false, "", true, [], [], true, ""⟩).2 (by decide) (by decide)⟩

/-- C5 counterexample: on a trap-evaluation error the honeypot module DOES
report a bot verdict: `_create_error_result` sets `honeypot_verdict.is_bot`
to true, so the producer convicts at its own level on its own error. -/
theorem C5_counterexample :
    (createErrorResult "boom").honeypot_verdict.is_bot = true := rfl

/-- C5 (amended): if trap evaluation throws, the honeypot module reports
honeypot score 0.0 with indicator `analysis_error`, but its verdict still
reports `is_bot = true` with confidence 0.3, bot probability 0.5 and
recommendation `monitor` (not `block`). -/
theorem C5_error_result (msg : String) :
    (createErrorResult msg).honeypot_results_total_score = 0
      ∧ (createErrorResult msg).analysis_honeypot_score = 0
      ∧ (createErrorResult msg).threat_indicators = ["analysis_error"]
      ∧ (createErrorResult msg).honeypot_results_indicators = ["analysis_error"]
      ∧ (createErrorResult msg).honeypot_verdict.is_bot = true
      ∧ (createErrorResult msg).honeypot_verdict.confidence = 0.3
      ∧ (createErrorResult msg).honeypot_verdict.bot_probability = 0.5
      ∧ (createErrorResult msg).honeypot_verdict.recommendation = "monitor" :=
  ⟨rfl, rfl, rfl, rfl, rfl, rfl, rfl, rfl⟩

/-- C9: the focus-order trap triggers only on a history of at least 6 focus
transitions, and then only when at least 3 immediate back-and-forths between
the same two fields or at least 4 jumps skipping 4 or more fields were
counted; any shorter history or milder pattern never triggers it. -/
theorem C9_focus_order_trigger (trail expected : List String) :
    (focusOrderTriggered trail expected = true →
        6 ≤ trail.length
          ∧ (3 ≤ rapidBackAndForth trail expected ∨ 4 ≤ extremeViolations trail expected))
      ∧ (trail.length < 6 → focusOrderTriggered trail expected = false)
      ∧ (rapidBackAndForth trail expected < 3 → extremeViolations trail expected < 4 →
          focusOrderTriggered trail expected = false) := by
  refine ⟨fun h => ?_, fun h => ?_, fun h1 h2 => ?_⟩
  · simp only [focusOrderTriggered, Bool.and_eq_true, Bool.or_eq_true,
      decide_eq_true_eq] at h
    exact ⟨h.1.1, h.2⟩
  · cases hb : focusOrderTriggered trail expected
    · rfl
    · exfalso
      simp only [focusOrderTriggered, Bool.and_eq_true, Bool.or_eq_true,
        decide_eq_true_eq] at hb
      omega
  · cases hb : focusOrderTriggered trail expected
    · rfl
    · exfalso
      simp only [focusOrderTriggered, Bool.and_eq_true, Bool.or_eq_true,
        decide_eq_true_eq] at hb
      omega

/-- Witness for C9: a two-entry focus history can never trigger the trap. -/
theorem C9_witness :
    focusOrderTriggered ["name", "email"] ["name", "email", "message"] = false :=
  (C9_focus_order_trigger ["name", "email"] ["name", "email", "message"]).2.1 (by norm_num)

/-- C10: every successful honeypot analysis reports confidence
`min(0.9, 0.5 + total_score * 0.4)`, which always lies in [0.5, 0.9] and
never reaches 1.0; hence the honeypot term of the fused weighted sum is at
most 0.9 * 0.45 = 0.405, strictly below the full 0.45 weight. -/
theorem C10_confidence_capped (events : List Event) (m : Metadata) (b : Bool) :
    (analyze events m).honeypot_verdict.confidence
        = min 0.9 (0.5 + analyzeTotalScore events m * 0.4)
      ∧ 0.5 ≤ (analyze events m).honeypot_verdict.confidence
      ∧ (analyze events m).honeypot_verdict.confidence ≤ 0.9
      ∧ gate b * (analyze events m).honeypot_verdict.confidence * honeypot_weight ≤ 0.405
      ∧ gate b * (analyze events m).honeypot_verdict.confidence * honeypot_weight < 0.45 := by
  have hts := analyzeTotalScore_nonneg events m
  have hc : (analyze events m).honeypot_verdict.confidence
      = min 0.9 (0.5 + analyzeTotalScore events m * 0.4) := rfl
  have h09 : (analyze events m).honeypot_verdict.confidence ≤ 0.9 := by
    rw [hc]; exact min_le_left _ _
  have h05 : (0.5 : ℚ) ≤ (analyze events m).honeypot_verdict.confidence := by
    rw [hc]
    refine le_min (by norm_num) (by nlinarith)
  refine ⟨hc, h05, h09, ?_, ?_⟩ <;>
    cases b <;> simp [gate, honeypot_weight] <;> nlinarith

end SmartCaptcha
